import Mathlib

/-!
Shallow embedding of the NoorSol financial dashboard's scenario calculator
(src/app.py).  Python float arithmetic is modelled over ℚ (the spec states
computation is exact, with no rounding until display); the IEEE value
`float("inf")` returned by `breakeven_units` is modelled as `⊤ : WithTop ℚ`.
-/

namespace NoorSol

/-- src/app.py line 15. -/
def TOTAL_BIKES_DUBAI : ℚ := 40000

/-- src/app.py line 16: `BAGS_PER_BIKE_PER_YEAR = 1.0`. -/
def BAGS_PER_BIKE_PER_YEAR : ℚ := 1

/-- src/app.py line 17: `int(TOTAL_BIKES_DUBAI * BAGS_PER_BIKE_PER_YEAR)`;
the product is non-negative, so Python's truncating `int` is the floor. -/
def ANNUAL_BAG_DEMAND : ℚ := ((⌊TOTAL_BIKES_DUBAI * BAGS_PER_BIKE_PER_YEAR⌋ : ℤ) : ℚ)

/-- src/app.py line 20. -/
def B2C_MARKET_SIZE_DUBAI : ℚ := 200000

/-- src/app.py line 24. -/
def B2B_PRICE_LAUNCH : ℚ := 450

/-- src/app.py line 25. -/
def B2B_COGS : ℚ := 200

/-- src/app.py line 28. -/
def B2C_PRICE_LAUNCH : ℚ := 599

/-- src/app.py line 29. -/
def B2C_COGS : ℚ := 305

/-- src/app.py line 32. -/
def FIXED_SALARIES : ℚ := 360000

/-- src/app.py line 33. -/
def FIXED_MARKETING : ℚ := 90000

/-- src/app.py line 34. -/
def FIXED_RND : ℚ := 40000

/-- src/app.py line 35. -/
def FIXED_OPS : ℚ := 120000

/-- src/app.py line 36. -/
def FIXED_OTHER : ℚ := 30000

/-- src/app.py lines 37-43. -/
def TOTAL_FIXED_COSTS : ℚ :=
  FIXED_SALARIES + FIXED_MARKETING + FIXED_RND + FIXED_OPS + FIXED_OTHER

/-- The dict returned by `compute_scenario` (src/app.py lines 87-106),
one field per key in source order. -/
structure ScenarioResult where
  scenario : String
  adoption_b2b : ℚ
  adoption_b2c : ℚ
  b2b_units : ℚ
  b2c_units : ℚ
  total_units : ℚ
  b2b_revenue : ℚ
  b2c_revenue : ℚ
  total_revenue : ℚ
  total_cogs : ℚ
  gross_profit : ℚ
  gross_margin_pct : ℚ
  fixed_costs : ℚ
  ebit : ℚ
  ebit_margin_pct : ℚ
  contribution_per_unit : ℚ
  b2b_cogs_total : ℚ
  b2c_cogs_total : ℚ
  deriving DecidableEq

/-- src/app.py lines 49-106: `compute_scenario`. -/
def compute_scenario (name : String)
    (adoption_rate_b2b : ℚ) (adoption_rate_b2c : ℚ) : ScenarioResult :=
  let b2b_units := ANNUAL_BAG_DEMAND * adoption_rate_b2b
  let b2c_units := B2C_MARKET_SIZE_DUBAI * adoption_rate_b2c
  let b2b_price := B2B_PRICE_LAUNCH
  let b2c_price := B2C_PRICE_LAUNCH
  let b2b_revenue := b2b_units * b2b_price
  let b2c_revenue := b2c_units * b2c_price
  let total_revenue := b2b_revenue + b2c_revenue
  let b2b_cogs_total := b2b_units * B2B_COGS
  let b2c_cogs_total := b2c_units * B2C_COGS
  let total_cogs := b2b_cogs_total + b2c_cogs_total
  let gross_profit := total_revenue - total_cogs
  let gross_margin_pct :=
    if total_revenue > 0 then gross_profit / total_revenue * 100 else 0
  let ebit := gross_profit - TOTAL_FIXED_COSTS
  let ebit_margin_pct :=
    if total_revenue > 0 then ebit / total_revenue * 100 else 0
  let total_units := b2b_units + b2c_units
  let contribution_per_unit :=
    if total_units > 0 then gross_profit / total_units else 0
  { scenario := name
    adoption_b2b := adoption_rate_b2b
    adoption_b2c := adoption_rate_b2c
    b2b_units := b2b_units
    b2c_units := b2c_units
    total_units := total_units
    b2b_revenue := b2b_revenue
    b2c_revenue := b2c_revenue
    total_revenue := total_revenue
    total_cogs := total_cogs
    gross_profit := gross_profit
    gross_margin_pct := gross_margin_pct
    fixed_costs := TOTAL_FIXED_COSTS
    ebit := ebit
    ebit_margin_pct := ebit_margin_pct
    contribution_per_unit := contribution_per_unit
    b2b_cogs_total := b2b_cogs_total
    b2c_cogs_total := b2c_cogs_total }

/-- src/app.py lines 109-112: `breakeven_units`; `float("inf")` is `⊤`. -/
def breakeven_units (contribution_per_unit : ℚ) : WithTop ℚ :=
  if contribution_per_unit ≤ 0 then ⊤
  else ((TOTAL_FIXED_COSTS / contribution_per_unit : ℚ) : WithTop ℚ)

/-- src/app.py line 632: the cumulative-profit value at one sampled unit
count `u`: `u * contribution_per_unit - TOTAL_FIXED_COSTS`. -/
def cum_profit (contribution_per_unit : ℚ) (u : ℚ) : ℚ :=
  u * contribution_per_unit - TOTAL_FIXED_COSTS

/-- src/app.py lines 631-636: the vectorised numpy expression applied to a
range of sampled unit counts, as the sequence of (units, profit) pairs the
breakeven chart consumes. -/
def cumulativeProfitCurve (contribution_per_unit : ℚ) (units : List ℚ) :
    List (ℚ × ℚ) :=
  units.map (fun u => (u, cum_profit contribution_per_unit u))

theorem ANNUAL_BAG_DEMAND_eq : ANNUAL_BAG_DEMAND = 40000 := by
  norm_num [ANNUAL_BAG_DEMAND, TOTAL_BIKES_DUBAI, BAGS_PER_BIKE_PER_YEAR]

theorem TOTAL_FIXED_COSTS_eq : TOTAL_FIXED_COSTS = 640000 := by
  norm_num [TOTAL_FIXED_COSTS, FIXED_SALARIES, FIXED_MARKETING, FIXED_RND,
    FIXED_OPS, FIXED_OTHER]

/-- C1: for every pair of adoption rates, the returned gross profit is
total revenue minus total COGS, the returned EBIT is gross profit minus
the total fixed costs, and those fixed costs are the constant 640000,
the sum of the five fixed cost buckets. -/
theorem C1_gross_profit_and_ebit (name : String) (a b : ℚ) :
    (compute_scenario name a b).gross_profit =
      (compute_scenario name a b).total_revenue -
        (compute_scenario name a b).total_cogs ∧
    (compute_scenario name a b).ebit =
      (compute_scenario name a b).gross_profit - TOTAL_FIXED_COSTS ∧
    TOTAL_FIXED_COSTS =
      FIXED_SALARIES + FIXED_MARKETING + FIXED_RND + FIXED_OPS + FIXED_OTHER ∧
    TOTAL_FIXED_COSTS = 640000 :=
  ⟨rfl, rfl, rfl, TOTAL_FIXED_COSTS_eq⟩

/-- C2: `breakeven_units` returns `TOTAL_FIXED_COSTS / c` for every `c > 0`,
returns positive infinity for every `c ≤ 0`, and every finite value it
returns is non-negative (it is total, so it never raises). -/
theorem C2_breakeven_contract (c : ℚ) :
    (0 < c → breakeven_units c = ((TOTAL_FIXED_COSTS / c : ℚ) : WithTop ℚ)) ∧
    (c ≤ 0 → breakeven_units c = ⊤) ∧
    (∀ q : ℚ, breakeven_units c = (q : WithTop ℚ) → 0 ≤ q) := by
  refine ⟨fun hc => ?_, fun hc => ?_, fun q hq => ?_⟩
  · rw [breakeven_units, if_neg (not_le.mpr hc)]
  · rw [breakeven_units, if_pos hc]
  · rw [breakeven_units] at hq
    by_cases hc : c ≤ 0
    · rw [if_pos hc] at hq
      exact absurd hq.symm (WithTop.coe_ne_top)
    · rw [if_neg hc] at hq
      have hc' : 0 < c := lt_of_not_le hc
      have hq' : TOTAL_FIXED_COSTS / c = q := WithTop.coe_inj.mp hq
      rw [← hq']
      have hF : (0 : ℚ) ≤ TOTAL_FIXED_COSTS := by rw [TOTAL_FIXED_COSTS_eq]; norm_num
      exact div_nonneg hF hc'.le

/-- Witness for C2 at `c = 2`. -/
theorem C2_breakeven_contract_witness :
    breakeven_units 2 = ((320000 : ℚ) : WithTop ℚ) := by
  have h := (C2_breakeven_contract 2).1 (by norm_num)
  rw [h, TOTAL_FIXED_COSTS_eq]
  norm_num

/-- C3 counterexample: at adoption rates (-1, 0) total revenue is negative
(so nonzero) and total units is negative (so nonzero), yet both margins and
the contribution per unit are the guard value 0, not the claimed quotient
formulas. -/
theorem C3_counterexample :
    (compute_scenario "s" (-1) 0).total_revenue ≠ 0 ∧
    (compute_scenario "s" (-1) 0).gross_margin_pct ≠
      (compute_scenario "s" (-1) 0).gross_profit /
        (compute_scenario "s" (-1) 0).total_revenue * 100 ∧
    (compute_scenario "s" (-1) 0).total_units ≠ 0 ∧
    (compute_scenario "s" (-1) 0).contribution_per_unit ≠
      (compute_scenario "s" (-1) 0).gross_profit /
        (compute_scenario "s" (-1) 0).total_units := by
  norm_num [compute_scenario, ANNUAL_BAG_DEMAND_eq, B2C_MARKET_SIZE_DUBAI,
    B2B_PRICE_LAUNCH, B2B_COGS, B2C_PRICE_LAUNCH, B2C_COGS, TOTAL_FIXED_COSTS_eq]

/-- C3 (amended): the margins equal 0 whenever total revenue is ≤ 0 (in
particular when it is exactly 0, regardless of numerator sign) and equal
numerator / total revenue × 100 when total revenue is strictly positive;
the contribution per unit equals 0 whenever total units is ≤ 0 and equals
gross profit / total units when total units is strictly positive. -/
theorem C3_guarded_margins (name : String) (a b : ℚ) :
    ((compute_scenario name a b).total_revenue ≤ 0 →
      (compute_scenario name a b).gross_margin_pct = 0 ∧
      (compute_scenario name a b).ebit_margin_pct = 0) ∧
    (0 < (compute_scenario name a b).total_revenue →
      (compute_scenario name a b).gross_margin_pct =
        (compute_scenario name a b).gross_profit /
          (compute_scenario name a b).total_revenue * 100 ∧
      (compute_scenario name a b).ebit_margin_pct =
        (compute_scenario name a b).ebit /
          (compute_scenario name a b).total_revenue * 100) ∧
    ((compute_scenario name a b).total_units ≤ 0 →
      (compute_scenario name a b).contribution_per_unit = 0) ∧
    (0 < (compute_scenario name a b).total_units →
      (compute_scenario name a b).contribution_per_unit =
        (compute_scenario name a b).gross_profit /
          (compute_scenario name a b).total_units) := by
  refine ⟨fun h => ⟨if_neg (not_lt.mpr h), if_neg (not_lt.mpr h)⟩,
          fun h => ⟨if_pos h, if_pos h⟩,
          fun h => if_neg (not_lt.mpr h),
          fun h => if_pos h⟩

/-- Witness for C3 (amended) at rates (0, 0) and (1, 1). -/
theorem C3_guarded_margins_witness :
    (compute_scenario "s" 0 0).gross_margin_pct = 0 ∧
    (compute_scenario "s" 1 1).contribution_per_unit =
      (compute_scenario "s" 1 1).gross_profit /
        (compute_scenario "s" 1 1).total_units := by
  constructor
  · exact ((C3_guarded_margins "s" 0 0).1
      (by norm_num [compute_scenario, ANNUAL_BAG_DEMAND_eq,
        B2C_MARKET_SIZE_DUBAI, B2B_PRICE_LAUNCH, B2C_PRICE_LAUNCH])).1
  · exact (C3_guarded_margins "s" 1 1).2.2.2
      (by norm_num [compute_scenario, ANNUAL_BAG_DEMAND_eq,
        B2C_MARKET_SIZE_DUBAI])

/-- C4 counterexample: the annual bag demand of this variant is 40000
(40000 bikes × 1.0 bags per year), not 60000, so a 10% B2B adoption rate
yields 4000 B2B units (not 6000) and the base scenario's total revenue is
2339100 (not 3239100). -/
theorem C4_counterexample :
    ANNUAL_BAG_DEMAND ≠ 60000 ∧
    (compute_scenario "Base" (1/10) (9/2000)).b2b_units ≠ 6000 ∧
    (compute_scenario "Base" (1/10) (9/2000)).total_revenue ≠ 3239100 := by
  norm_num [compute_scenario, ANNUAL_BAG_DEMAND_eq, B2C_MARKET_SIZE_DUBAI,
    B2B_PRICE_LAUNCH, B2C_PRICE_LAUNCH]

/-- C4 (amended): annual bag demand is 40000 (40000 bikes × 1.0 bags/year);
10% B2B adoption yields 4000 B2B units, B2B revenue 1800000, B2B COGS
800000; B2C adoption 0.45% yields 900 units, B2C revenue 539100, B2C COGS
274500; total revenue 2339100, total COGS 1074500, gross profit 1264600,
fixed costs 640000, EBIT 624600. -/
theorem C4_base_scenario_values :
    ANNUAL_BAG_DEMAND = 40000 ∧
    (compute_scenario "Base" (1/10) (9/2000)).b2b_units = 4000 ∧
    (compute_scenario "Base" (1/10) (9/2000)).b2b_revenue = 1800000 ∧
    (compute_scenario "Base" (1/10) (9/2000)).b2b_cogs_total = 800000 ∧
    (compute_scenario "Base" (1/10) (9/2000)).b2c_units = 900 ∧
    (compute_scenario "Base" (1/10) (9/2000)).b2c_revenue = 539100 ∧
    (compute_scenario "Base" (1/10) (9/2000)).b2c_cogs_total = 274500 ∧
    (compute_scenario "Base" (1/10) (9/2000)).total_revenue = 2339100 ∧
    (compute_scenario "Base" (1/10) (9/2000)).total_cogs = 1074500 ∧
    (compute_scenario "Base" (1/10) (9/2000)).gross_profit = 1264600 ∧
    (compute_scenario "Base" (1/10) (9/2000)).fixed_costs = 640000 ∧
    (compute_scenario "Base" (1/10) (9/2000)).ebit = 624600 := by
  norm_num [compute_scenario, ANNUAL_BAG_DEMAND_eq, B2C_MARKET_SIZE_DUBAI,
    B2B_PRICE_LAUNCH, B2B_COGS, B2C_PRICE_LAUNCH, B2C_COGS, TOTAL_FIXED_COSTS_eq]

/-- C5: for every strictly positive contribution per unit, the finite value
returned by `breakeven_units`, multiplied back by the contribution, equals
`TOTAL_FIXED_COSTS` exactly (over ℚ). -/
theorem C5_breakeven_roundtrip (c : ℚ) (hc : 0 < c) :
    ∃ q : ℚ, breakeven_units c = (q : WithTop ℚ) ∧ q * c = TOTAL_FIXED_COSTS := by
  refine ⟨TOTAL_FIXED_COSTS / c, ?_, ?_⟩
  · rw [breakeven_units, if_neg (not_le.mpr hc)]
  · exact div_mul_cancel₀ TOTAL_FIXED_COSTS hc.ne'

/-- Witness for C5 at `c = 2`. -/
theorem C5_breakeven_roundtrip_witness :
    ∃ q : ℚ, breakeven_units 2 = (q : WithTop ℚ) ∧ q * 2 = TOTAL_FIXED_COSTS :=
  C5_breakeven_roundtrip 2 (by norm_num)

/-- C6: the cumulative profit curve assigns to each sampled unit count `u`
the value `u * c - TOTAL_FIXED_COSTS`; for strictly positive contribution
`c` the profit function is strictly increasing in `u`, and it is zero at
exactly the unit count returned by `breakeven_units c`. -/
theorem C6_profit_curve (c : ℚ) (hc : 0 < c) :
    (∀ us : List ℚ, cumulativeProfitCurve c us =
      us.map (fun u => (u, u * c - TOTAL_FIXED_COSTS))) ∧
    StrictMono (cum_profit c) ∧
    (∀ u : ℚ, cum_profit c u = 0 ↔ breakeven_units c = (u : WithTop ℚ)) := by
  refine ⟨fun us => rfl, fun u v huv => ?_, fun u => ?_⟩
  · simpa [cum_profit] using
      sub_lt_sub_right (mul_lt_mul_of_pos_right huv hc) TOTAL_FIXED_COSTS
  · rw [cum_profit, breakeven_units, if_neg (not_le.mpr hc),
      WithTop.coe_eq_coe, div_eq_iff hc.ne', sub_eq_zero]
    exact eq_comm

/-- Witness for C6 at `c = 250` with sample points 0 and 2560. -/
theorem C6_profit_curve_witness :
    cumulativeProfitCurve 250 [0, 2560] =
      [((0 : ℚ), (-640000 : ℚ)), (2560, 0)] ∧
    cum_profit 250 2560 < cum_profit 250 2561 ∧
    (cum_profit 250 2560 = 0 ↔
      breakeven_units 250 = ((2560 : ℚ) : WithTop ℚ)) := by
  have h := C6_profit_curve 250 (by norm_num)
  refine ⟨?_, h.2.1 (by norm_num), h.2.2 2560⟩
  rw [h.1 [0, 2560]]
  norm_num [TOTAL_FIXED_COSTS_eq]

theorem total_units_eq (name : String) (a b : ℚ) :
    (compute_scenario name a b).total_units = 40000 * a + 200000 * b := by
  simp only [compute_scenario, ANNUAL_BAG_DEMAND_eq, B2C_MARKET_SIZE_DUBAI]

theorem total_revenue_eq (name : String) (a b : ℚ) :
    (compute_scenario name a b).total_revenue =
      18000000 * a + 119800000 * b := by
  simp only [compute_scenario, ANNUAL_BAG_DEMAND_eq, B2C_MARKET_SIZE_DUBAI,
    B2B_PRICE_LAUNCH, B2C_PRICE_LAUNCH]
  ring

theorem gross_profit_eq (name : String) (a b : ℚ) :
    (compute_scenario name a b).gross_profit =
      10000000 * a + 58800000 * b := by
  simp only [compute_scenario, ANNUAL_BAG_DEMAND_eq, B2C_MARKET_SIZE_DUBAI,
    B2B_PRICE_LAUNCH, B2B_COGS, B2C_PRICE_LAUNCH, B2C_COGS]
  ring

theorem ebit_eq (name : String) (a b : ℚ) :
    (compute_scenario name a b).ebit =
      10000000 * a + 58800000 * b - 640000 := by
  simp only [compute_scenario, ANNUAL_BAG_DEMAND_eq, B2C_MARKET_SIZE_DUBAI,
    B2B_PRICE_LAUNCH, B2B_COGS, B2C_PRICE_LAUNCH, B2C_COGS, TOTAL_FIXED_COSTS_eq]
  ring

/-- C7: `compute_scenario` is a pure total function: identical arguments
give identical results, the result echoes the arguments unchanged (value
semantics — nothing is mutated), and it is defined at every rational
input, zero and negative rates included. -/
theorem C7_pure_deterministic (n m : String) (a b a2 b2 : ℚ)
    (hn : n = m) (ha : a = a2) (hb : b = b2) :
    compute_scenario n a b = compute_scenario m a2 b2 ∧
    (compute_scenario n a b).scenario = n ∧
    (compute_scenario n a b).adoption_b2b = a ∧
    (compute_scenario n a b).adoption_b2c = b := by
  subst hn ha hb
  exact ⟨rfl, rfl, rfl, rfl⟩

/-- Witness for C7 at a negative and a zero rate. -/
theorem C7_pure_deterministic_witness :
    compute_scenario "s" (-1) 0 = compute_scenario "s" (-1) 0 ∧
    (compute_scenario "s" (-1) 0).scenario = "s" ∧
    (compute_scenario "s" (-1) 0).adoption_b2b = -1 ∧
    (compute_scenario "s" (-1) 0).adoption_b2c = 0 :=
  C7_pure_deterministic "s" "s" (-1) 0 (-1) 0 rfl rfl rfl

/-- C8: prices exceed unit costs on both lines, so for non-negative
adoption rates with at least one strictly positive, gross profit and
contribution per unit are strictly positive and the breakeven is finite;
conversely, with non-negative rates the infinite-breakeven branch is
reached only when both rates are zero. -/
theorem C8_positive_margin_reachability :
    B2B_COGS < B2B_PRICE_LAUNCH ∧ B2C_COGS < B2C_PRICE_LAUNCH ∧
    (∀ (n : String) (a b : ℚ), 0 ≤ a → 0 ≤ b → (0 < a ∨ 0 < b) →
      0 < (compute_scenario n a b).gross_profit ∧
      0 < (compute_scenario n a b).contribution_per_unit ∧
      breakeven_units (compute_scenario n a b).contribution_per_unit ≠ ⊤) ∧
    (∀ (n : String) (a b : ℚ), 0 ≤ a → 0 ≤ b →
      breakeven_units (compute_scenario n a b).contribution_per_unit = ⊤ →
      a = 0 ∧ b = 0) := by
  have hfwd : ∀ (n : String) (a b : ℚ), 0 ≤ a → 0 ≤ b → (0 < a ∨ 0 < b) →
      0 < (compute_scenario n a b).gross_profit ∧
      0 < (compute_scenario n a b).contribution_per_unit ∧
      breakeven_units (compute_scenario n a b).contribution_per_unit ≠ ⊤ := by
    intro n a b ha hb hab
    have hgp : 0 < (compute_scenario n a b).gross_profit := by
      rw [gross_profit_eq]
      rcases hab with h | h
      · linarith
      · linarith
    have hu : 0 < (compute_scenario n a b).total_units := by
      rw [total_units_eq]
      rcases hab with h | h
      · linarith
      · linarith
    have hcontrib : (compute_scenario n a b).contribution_per_unit =
        (compute_scenario n a b).gross_profit /
          (compute_scenario n a b).total_units := if_pos hu
    have hc : 0 < (compute_scenario n a b).contribution_per_unit := by
      rw [hcontrib]
      exact div_pos hgp hu
    refine ⟨hgp, hc, ?_⟩
    rw [breakeven_units, if_neg (not_le.mpr hc)]
    exact WithTop.coe_ne_top
  refine ⟨by norm_num [B2B_COGS, B2B_PRICE_LAUNCH],
          by norm_num [B2C_COGS, B2C_PRICE_LAUNCH], hfwd, ?_⟩
  intro n a b ha hb htop
  by_contra hcon
  have hor : 0 < a ∨ 0 < b := by
    rcases not_and_or.mp hcon with h | h
    · exact Or.inl (lt_of_le_of_ne ha (Ne.symm h))
    · exact Or.inr (lt_of_le_of_ne hb (Ne.symm h))
  exact (hfwd n a b ha hb hor).2.2 htop

/-- Witness for C8: finite breakeven at rates (1, 0), infinite only at
(0, 0). -/
theorem C8_positive_margin_reachability_witness :
    (0 < (compute_scenario "s" 1 0).gross_profit ∧
     0 < (compute_scenario "s" 1 0).contribution_per_unit ∧
     breakeven_units (compute_scenario "s" 1 0).contribution_per_unit ≠ ⊤) ∧
    ((0 : ℚ) = 0 ∧ (0 : ℚ) = 0) := by
  have h := C8_positive_margin_reachability
  refine ⟨h.2.2.1 "s" 1 0 (by norm_num) le_rfl (Or.inl (by norm_num)),
          h.2.2.2 "s" 0 0 le_rfl le_rfl ?_⟩
  have hc : (compute_scenario "s" 0 0).contribution_per_unit = 0 := by
    norm_num [compute_scenario, ANNUAL_BAG_DEMAND_eq, B2C_MARKET_SIZE_DUBAI]
  rw [hc, breakeven_units, if_pos le_rfl]

/-- C9: with the B2C rate fixed, a strictly larger B2B adoption rate gives
strictly larger total units, total revenue, gross profit and EBIT; and
symmetrically in the B2C rate with the B2B rate fixed. -/
theorem C9_strictly_monotone_rates :
    (∀ (n : String) (a a2 b : ℚ), a < a2 →
      (compute_scenario n a b).total_units <
        (compute_scenario n a2 b).total_units ∧
      (compute_scenario n a b).total_revenue <
        (compute_scenario n a2 b).total_revenue ∧
      (compute_scenario n a b).gross_profit <
        (compute_scenario n a2 b).gross_profit ∧
      (compute_scenario n a b).ebit < (compute_scenario n a2 b).ebit) ∧
    (∀ (n : String) (a b b2 : ℚ), b < b2 →
      (compute_scenario n a b).total_units <
        (compute_scenario n a b2).total_units ∧
      (compute_scenario n a b).total_revenue <
        (compute_scenario n a b2).total_revenue ∧
      (compute_scenario n a b).gross_profit <
        (compute_scenario n a b2).gross_profit ∧
      (compute_scenario n a b).ebit < (compute_scenario n a b2).ebit) := by
  constructor
  · intro n a a2 b h
    refine ⟨?_, ?_, ?_, ?_⟩ <;>
      simp only [total_units_eq, total_revenue_eq, gross_profit_eq, ebit_eq] <;>
      linarith
  · intro n a b b2 h
    refine ⟨?_, ?_, ?_, ?_⟩ <;>
      simp only [total_units_eq, total_revenue_eq, gross_profit_eq, ebit_eq] <;>
      linarith

/-- Witness for C9 at rates 0 < 1 on each line. -/
theorem C9_strictly_monotone_rates_witness :
    (compute_scenario "s" 0 0).ebit < (compute_scenario "s" 1 0).ebit ∧
    (compute_scenario "s" 0 0).ebit < (compute_scenario "s" 0 1).ebit := by
  have h := C9_strictly_monotone_rates
  exact ⟨(h.1 "s" 0 1 0 (by norm_num)).2.2.2,
         (h.2 "s" 0 0 1 (by norm_num)).2.2.2⟩

/-- C10: scaling both adoption rates by any `k ≥ 0` scales the per-line
unit volumes, the per-line and total revenue, the total COGS, the gross
profit and the total units exactly by `k`, while the reported fixed costs
field is the constant 640000 in every result. -/
theorem C10_homogeneous (n : String) (k a b : ℚ) (hk : 0 ≤ k) :
    (compute_scenario n (k * a) (k * b)).b2b_units =
      k * (compute_scenario n a b).b2b_units ∧
    (compute_scenario n (k * a) (k * b)).b2c_units =
      k * (compute_scenario n a b).b2c_units ∧
    (compute_scenario n (k * a) (k * b)).b2b_revenue =
      k * (compute_scenario n a b).b2b_revenue ∧
    (compute_scenario n (k * a) (k * b)).b2c_revenue =
      k * (compute_scenario n a b).b2c_revenue ∧
    (compute_scenario n (k * a) (k * b)).total_revenue =
      k * (compute_scenario n a b).total_revenue ∧
    (compute_scenario n (k * a) (k * b)).total_cogs =
      k * (compute_scenario n a b).total_cogs ∧
    (compute_scenario n (k * a) (k * b)).gross_profit =
      k * (compute_scenario n a b).gross_profit ∧
    (compute_scenario n (k * a) (k * b)).total_units =
      k * (compute_scenario n a b).total_units ∧
    (compute_scenario n (k * a) (k * b)).fixed_costs = 640000 ∧
    (compute_scenario n a b).fixed_costs = 640000 := by
  refine ⟨?_, ?_, ?_, ?_, ?_, ?_, ?_, ?_, ?_, ?_⟩ <;>
    simp only [compute_scenario, TOTAL_FIXED_COSTS_eq] <;>
    ring

/-- Witness for C10 at `k = 2`, rates (3, 5). -/
theorem C10_homogeneous_witness :
    (compute_scenario "s" (2 * 3) (2 * 5)).total_revenue =
      2 * (compute_scenario "s" 3 5).total_revenue ∧
    (compute_scenario "s" 3 5).fixed_costs = 640000 := by
  have h := C10_homogeneous "s" 2 3 5 (by norm_num)
  exact ⟨h.2.2.2.2.1, h.2.2.2.2.2.2.2.2.2⟩

end NoorSol
